import Mathlib

/-!
Shallow embedding of the incremental transaction synchronization and export
code of the Hawaii-Farming/plaid repository.

The embedded functions keep the names of the JavaScript functions they are
translated from:

* `fetchTransactionsSync`  — `scripts/export-transactions.js`, lines 166-207
  (the Transactions Sync drain loop).
* `fetchTransactionsGet`   — `scripts/export-transactions.js`, lines 212-261
  (the Transactions Get fallback loop; stops when a page is shorter than the
  batch size of 500).
* `normalizeTransactions`  — `scripts/export-transactions.js`, lines 266-281.
* `filterTransactions`     — `scripts/export-transactions.js`, lines 286-291.
* `saveCursor`             — `scripts/export-transactions.js`, lines 153-161
  (catches every write error, logs it and returns undefined either way).
* `mainWithCursor` / `mainFirstRun` — the two branches of `main`,
  `scripts/export-transactions.js`, lines 385-457.
* `fetchAllTransactions`   — `src/unnamed/part_004`, lines 135-173 (the server
  helper that reads the total from the first page and advances the offset by
  the fixed page size 500 on every iteration).
* `fetchTransactions`      — `scripts/export-transactions-to-sheets.js`,
  lines 63-85 (re-assigns its `total` from every page's response and advances
  the offset by the number of records actually returned).
* `getExistingTransactionIds`, `appendTransactions`, `ensureHeadersExist`,
  `sheetRow` — `node/sheets.js`, lines 37-125 (the deduplicating Google
  Sheets writer; the dedup key is stored in column index 8).

I/O is made explicit: upstream sources are page functions, the cursor file is
an `Option String`, failure of a request or of a write is a Boolean or an
`Option`-valued response, and one unit of fuel is consumed per loop iteration
where the JavaScript loop has no structural bound.
-/

namespace PlaidExport

/-- A Plaid transaction record, with exactly the fields the export scripts
read.  Optional fields model the JavaScript values that may be
null/undefined; `amount` is passed through untouched by all of the code, so
it is kept as an integer. -/
structure Txn where
  transaction_id : String
  account_id : String
  date : String
  authorized_date : Option String
  name : Option String
  merchant_name : Option String
  amount : Int
  iso_currency_code : Option String
  category : Option (List String)
  pending : Bool
  payment_channel : Option String
  transaction_type : Option String
  deriving DecidableEq, Repr

/-- A transaction with a given id and default values everywhere else; used to
build concrete test records. -/
def mkTxn (id : String) : Txn :=
  ⟨id, "", "", none, none, none, 0, none, none, false, none, none⟩

/-- JavaScript `x || d` for an optional string: `null`/`undefined` and the
empty string are falsy and give the default. -/
def jsOr (x : Option String) (d : String) : String :=
  match x with
  | none => d
  | some s => if s = "" then d else s

/-- The flat row produced by `normalizeTransactions`
(`scripts/export-transactions.js`, lines 266-281).  Every field is the string
the script computes; `pending` holds the script's `t.pending ? 'Yes' : 'No'`
value. -/
structure NormalizedTxn where
  transaction_id : String
  account_id : String
  date : String
  authorized_date : String
  name : String
  merchant_name : String
  amount : Int
  iso_currency_code : String
  category : String
  pending : String
  payment_channel : String
  transaction_type : String
  deriving DecidableEq, Repr

/-- The per-record body of `normalizeTransactions`
(`scripts/export-transactions.js`, lines 267-280). -/
def normalizeTxn (t : Txn) : NormalizedTxn where
  transaction_id := t.transaction_id
  account_id := t.account_id
  date := t.date
  authorized_date := jsOr t.authorized_date ""
  name := jsOr t.name ""
  merchant_name := jsOr t.merchant_name ""
  amount := t.amount
  iso_currency_code := jsOr t.iso_currency_code ""
  category :=
    match t.category with
    | some labels => String.intercalate " / " labels
    | none => ""
  pending := if t.pending then "Yes" else "No"
  payment_channel := jsOr t.payment_channel ""
  transaction_type := jsOr t.transaction_type ""

/-- `normalizeTransactions` (`scripts/export-transactions.js`, lines
266-281): `transactions.map(t => ...)`. -/
def normalizeTransactions (ts : List Txn) : List NormalizedTxn :=
  ts.map normalizeTxn

/-- `filterTransactions` (`scripts/export-transactions.js`, lines 286-291):
no filter, or an empty filter list, keeps everything; otherwise keep the
transactions whose `account_id` is in the list. -/
def filterTransactions (accountIds : Option (List String)) (ts : List Txn) :
    List Txn :=
  match accountIds with
  | none => ts
  | some ids =>
      if ids.length = 0 then ts
      else ts.filter (fun t => decide (t.account_id ∈ ids))

/-- One response of the Transactions Sync endpoint: the `added`, `modified`
and `removed` arrays, the `has_more` flag and the `next_cursor` token. -/
structure SyncPage where
  added : List Txn
  modified : List Txn
  removed : List String
  has_more : Bool
  next_cursor : String
  deriving DecidableEq, Repr

/-- The value returned by `fetchTransactionsSync`, plus the number of sync
requests the drain loop issued. -/
structure SyncResult where
  added : List Txn
  modified : List Txn
  removed : List String
  cursor : Option String
  calls : Nat
  deriving DecidableEq, Repr

/-- The drain loop of `fetchTransactionsSync`
(`scripts/export-transactions.js`, lines 176-194): `hasMore` starts `true`,
so one request is always issued; each response's arrays are pushed onto the
accumulators, `hasMore` and `nextCursor` are taken from the response.  The
upstream source is modelled as the list of responses it will serve, in
order; an empty list while the loop still wants a page is a failed request
(the JavaScript `await` throws), giving `none`. -/
def syncGo : List SyncPage → List Txn → List Txn → List String →
    Option String → Nat → Option SyncResult
  | [], _, _, _, _, _ => none
  | p :: rest, a, m, r, _, k =>
    let a' := a ++ p.added
    let m' := m ++ p.modified
    let r' := r ++ p.removed
    if p.has_more then syncGo rest a' m' r' (some p.next_cursor) (k + 1)
    else some ⟨a', m', r', some p.next_cursor, k + 1⟩

/-- `fetchTransactionsSync` (`scripts/export-transactions.js`, lines
166-207), over a source that serves the given pages in order.  The input
cursor seeds `nextCursor`; the accumulators start empty. -/
def fetchTransactionsSync (pages : List SyncPage) (cursor : Option String) :
    Option SyncResult :=
  syncGo pages [] [] [] cursor 0

/-- Page-order concatenation of one field of a list of sync pages. -/
def pagesConcat {α : Type} (f : SyncPage → List α) : List SyncPage → List α
  | [] => []
  | p :: rest => f p ++ pagesConcat f rest

/-- One response of the Transactions Get endpoint: the page of transactions
and the `total_transactions` count it reports. -/
structure GetResp where
  transactions : List Txn
  total_transactions : Nat
  deriving DecidableEq, Repr

/-- The loop of `fetchTransactionsGet` (`scripts/export-transactions.js`,
lines 221-250): the source is a function from the requested offset to the
page it serves (`none` is a failed request).  Each page is pushed, the
offset advances by the page's actual length and `hasMore` becomes
`transactions.length === batchSize` with `batchSize = 500`; the reported
totals are never consulted.  One unit of fuel is spent per iteration,
`none` on exhaustion. -/
def fetchGetGo (src : Nat → Option (List Txn)) :
    Nat → Nat → List Txn → Option (List Txn)
  | 0, _, _ => none
  | fuel + 1, offset, acc =>
    match src offset with
    | none => none
    | some txns =>
      if txns.length = 500 then fetchGetGo src fuel (offset + txns.length) (acc ++ txns)
      else some (acc ++ txns)

/-- `fetchTransactionsGet` (`scripts/export-transactions.js`, lines
212-261): starts at offset 0 with an empty accumulator. -/
def fetchTransactionsGet (src : Nat → Option (List Txn)) (fuel : Nat) :
    Option (List Txn) :=
  fetchGetGo src fuel 0 []

/-- The `while (all.length < total)` loop of `fetchAllTransactions`
(`src/unnamed/part_004`, lines 157-170): the offset advances by the fixed
page size 500 regardless of how many records the page returned, and `total`
is the value fixed by the caller from the first page.  One unit of fuel is
spent per iteration; `none` means the loop was still running when the fuel
ran out. -/
def fetchAllGo (src : Nat → GetResp) (total : Nat) :
    Nat → Nat → List Txn → Option (List Txn)
  | 0, _, all => if all.length < total then none else some all
  | fuel + 1, offset, all =>
    if all.length < total then
      fetchAllGo src total fuel (offset + 500) (all ++ (src offset).transactions)
    else some all

/-- `fetchAllTransactions` (`src/unnamed/part_004`, lines 135-173): fetch
the first page at offset 0, read `total_transactions` from it once, then
loop from offset 500.  (The `accounts` field of the first response, also
returned by the JavaScript helper, plays no role in any claim and is
elided.) -/
def fetchAllTransactions (src : Nat → GetResp) (fuel : Nat) :
    Option (List Txn) :=
  let first := src 0
  fetchAllGo src first.total_transactions fuel 500 first.transactions

/-- The `while (offset < total)` loop of `fetchTransactions`
(`scripts/export-transactions-to-sheets.js`, lines 70-83): `total` is
re-assigned from every response and the offset advances by the page's
actual length. -/
def fetchTxGo (src : Nat → GetResp) :
    Nat → Nat → Nat → List Txn → Option (List Txn)
  | 0, offset, total, acc => if offset < total then none else some acc
  | fuel + 1, offset, total, acc =>
    if offset < total then
      let r := src offset
      fetchTxGo src fuel (offset + r.transactions.length) r.total_transactions
        (acc ++ r.transactions)
    else some acc

/-- `fetchTransactions` (`scripts/export-transactions-to-sheets.js`, lines
63-85): `offset = 0, total = 1` seed the loop.  (The per-account map the
script also builds is elided.) -/
def fetchTransactions (src : Nat → GetResp) (fuel : Nat) :
    Option (List Txn) :=
  fetchTxGo src fuel 0 1 []

/-- The ideal offset-paginated source over a fixed record list `L`: the page
at `offset` is the next `min 500 (L.length - offset)` records and every
response reports `total_transactions = L.length`. -/
def srcExact (L : List Txn) : Nat → GetResp :=
  fun offset => ⟨(L.drop offset).take 500, L.length⟩

/-- A Google Sheets cell value as the writer produces it: a string, a raw
JavaScript number (the `t.amount` cell), or `undefined` (the `t.name` cell
when the record has no name). -/
inductive Cell where
  | str (s : String)
  | num (n : Int)
  | undefined
  deriving DecidableEq, Repr

/-- JavaScript truthiness of a cell value, as used by the writer's
`filter(Boolean)` over the key column: the empty string, zero and
`undefined` are falsy. -/
def Cell.truthy : Cell → Bool
  | .str s => s != ""
  | .num n => n != 0
  | .undefined => false

/-- A cell holding an optional string pushed raw (without `|| ''`). -/
def optCell : Option String → Cell
  | some s => .str s
  | none => .undefined

/-- The row `appendTransactions` builds for one transaction
(`node/sheets.js`, lines 98-108): date, account, name, amount, category
joined with " / " (empty when absent), merchant (empty when absent),
`'Pending'`/`'Posted'` from the pending flag, currency defaulting to
`'USD'`, and the transaction id in the hidden dedup column (index 8). -/
def sheetRow (t : Txn) : List Cell :=
  [.str t.date,
   .str t.account_id,
   optCell t.name,
   .num t.amount,
   .str (jsOr (t.category.map (String.intercalate " / ")) ""),
   .str (jsOr t.merchant_name ""),
   .str (if t.pending then "Pending" else "Posted"),
   .str (jsOr t.iso_currency_code "USD"),
   .str t.transaction_id]

/-- The spreadsheet as the writer sees it: whether the header row exists,
and the appended data rows in order.  (The header row spans columns A-H
only, so it never contributes a key-column value.) -/
structure Sheet where
  hasHeaders : Bool
  rows : List (List Cell)
  deriving DecidableEq, Repr

/-- `ensureHeadersExist` (`node/sheets.js`, lines 37-62): write the header
row once if it is missing, never rewrite it. -/
def ensureHeadersExist (s : Sheet) : Sheet :=
  if s.hasHeaders then s else { s with hasHeaders := true }

/-- `getExistingTransactionIds` (`node/sheets.js`, lines 64-80): read column
I of the sheet and build `new Set(values.flat().filter(Boolean))`; any read
error is caught and yields the empty set (`readFails` models a failing
`values.get` request). -/
def getExistingTransactionIds (readFails : Bool) (s : Sheet) : List Cell :=
  if readFails then []
  else (s.rows.filterMap (fun r => r.get? 8)).filter Cell.truthy

/-- What `appendTransactions` returns: the sheet state it leaves behind and
its `{ added, skipped }` counts. -/
structure AppendResult where
  sheet : Sheet
  added : Nat
  skipped : Nat
  deriving DecidableEq, Repr

/-- `appendTransactions` (`node/sheets.js`, lines 82-125): ensure headers,
read the existing key set, keep the transactions whose id is not in it,
return early when nothing is new, otherwise append the formatted rows in one
call and report the counts. -/
def appendTransactions (keyReadFails : Bool) (s : Sheet) (ts : List Txn) :
    AppendResult :=
  let s1 := ensureHeadersExist s
  let existingIds := getExistingTransactionIds keyReadFails s1
  let newTransactions :=
    ts.filter (fun t => !(decide (Cell.str t.transaction_id ∈ existingIds)))
  if newTransactions.length = 0 then ⟨s1, 0, ts.length⟩
  else
    ⟨{ s1 with rows := s1.rows ++ newTransactions.map sheetRow },
     newTransactions.length, ts.length - newTransactions.length⟩

/-- What `saveCursor` leaves behind: the cursor file's state, whether an
error line was logged, and the value returned to the caller — the JavaScript
function has no return statement and catches every write error, so the
caller receives `undefined` on both paths, modelled as `Unit`. -/
structure SaveResult where
  file : Option String
  errorLogged : Bool
  jsReturn : Unit
  deriving DecidableEq, Repr

/-- `saveCursor` (`scripts/export-transactions.js`, lines 153-161): a
successful write overwrites the single-slot cursor file; a failing write is
caught, logged, and leaves the file unchanged.  Both paths fall off the end
of the function. -/
def saveCursor (writeFails : Bool) (file : Option String) (cursor : Option String) :
    SaveResult :=
  if writeFails then ⟨file, true, ()⟩ else ⟨cursor, false, ()⟩

/-- The observable outcome of one `main` run: the cursor file's final state,
the rows written to the export file (`none` when no file was written), and
whether the run reported success. -/
structure RunOutcome where
  store : Option String
  exported : Option (List NormalizedTxn)
  ok : Bool
  deriving DecidableEq, Repr

/-- The tail of `main` (`scripts/export-transactions.js`, lines 434-465):
filter, return early (still a success) when nothing is left, normalize, then
write the export file; a failing write makes the whole run fail.  The cursor
file is whatever the earlier `saveCursor` calls left. -/
def finishRun (accountIds : Option (List String)) (exportFails : Bool)
    (store : Option String) (all : List Txn) : RunOutcome :=
  if (filterTransactions accountIds all).length = 0 then ⟨store, none, true⟩
  else if exportFails then ⟨store, none, false⟩
  else ⟨store, some (normalizeTransactions (filterTransactions accountIds all)), true⟩

/-- The cursor-present branch of `main` (`scripts/export-transactions.js`,
lines 392-405 followed by the common tail): drain the sync source, keep
`added ++ modified`, save the new cursor, then filter/normalize/export.  A
failed drain aborts the run before any save. -/
def mainWithCursor (accountIds : Option (List String))
    (saveFails exportFails : Bool) (store0 : Option String) (c0 : String)
    (pages : List SyncPage) : RunOutcome :=
  match fetchTransactionsSync pages (some c0) with
  | none => ⟨store0, none, false⟩
  | some res =>
    let allTransactions := res.added ++ res.modified
    let store1 := (saveCursor saveFails store0 res.cursor).file
    finishRun accountIds exportFails store1 allTransactions

/-- The first-run branch of `main` (`scripts/export-transactions.js`, lines
406-431 followed by the common tail): try a cursor-less sync first and keep
only its `added` records; when that fails, fall back to the Get fetch, then
attempt one cursor-less sync purely to obtain a cursor, ignoring its
records and swallowing its failure.  `sync1` and `sync2` are the pages the
upstream serves to the two sync attempts, `getSrc`/`getFuel` drive the Get
fallback. -/
def mainFirstRun (accountIds : Option (List String))
    (saveFails exportFails : Bool) (store0 : Option String)
    (getSrc : Nat → Option (List Txn)) (getFuel : Nat)
    (sync1 sync2 : List SyncPage) : RunOutcome :=
  match fetchTransactionsSync sync1 none with
  | some res =>
    let store1 := (saveCursor saveFails store0 res.cursor).file
    finishRun accountIds exportFails store1 res.added
  | none =>
    match fetchTransactionsGet getSrc getFuel with
    | none => ⟨store0, none, false⟩
    | some txns =>
      match fetchTransactionsSync sync2 none with
      | some initSync =>
        let store1 := (saveCursor saveFails store0 initSync.cursor).file
        finishRun accountIds exportFails store1 txns
      | none => finishRun accountIds exportFails store0 txns

/-! ### Helper lemmas -/

theorem syncGo_all_hasMore (pages : List SyncPage) :
    ∀ (a m : List Txn) (r : List String) (c : Option String) (k : Nat),
    (∀ p ∈ pages, p.has_more = true) → syncGo pages a m r c k = none := by
  induction pages with
  | nil => intro a m r c k _; rfl
  | cons p rest ih =>
    intro a m r c k h
    have hp : p.has_more = true := h p (List.mem_cons_self p rest)
    simp only [syncGo, hp, if_true]
    exact ih _ _ _ _ _ (fun q hq => h q (List.mem_cons_of_mem p hq))

theorem syncGo_drain (front : List SyncPage) (last : SyncPage) :
    ∀ (a m : List Txn) (r : List String) (c : Option String) (k : Nat),
    (∀ p ∈ front, p.has_more = true) → last.has_more = false →
    syncGo (front ++ [last]) a m r c k =
      some ⟨a ++ pagesConcat (fun p => p.added) (front ++ [last]),
            m ++ pagesConcat (fun p => p.modified) (front ++ [last]),
            r ++ pagesConcat (fun p => p.removed) (front ++ [last]),
            some last.next_cursor, k + front.length + 1⟩ := by
  induction front with
  | nil =>
    intro a m r c k _ hlast
    simp [syncGo, hlast, pagesConcat]
  | cons p fr ih =>
    intro a m r c k hfront hlast
    have hp : p.has_more = true := hfront p (List.mem_cons_self p fr)
    simp only [List.cons_append, syncGo, hp, if_true, List.append_eq]
    rw [ih _ _ _ _ _ (fun q hq => hfront q (List.mem_cons_of_mem p hq)) hlast]
    simp only [Option.some.injEq, SyncResult.mk.injEq, pagesConcat,
      List.append_assoc, List.length_cons, true_and, and_true]
    omega

theorem finishRun_store (a : Option (List String)) (e : Bool)
    (st : Option String) (all : List Txn) : (finishRun a e st all).store = st := by
  unfold finishRun
  split_ifs <;> rfl

theorem finishRun_indep_store (a : Option (List String)) (e : Bool)
    (st st' : Option String) (all : List Txn) :
    (finishRun a e st all).ok = (finishRun a e st' all).ok ∧
    (finishRun a e st all).exported = (finishRun a e st' all).exported := by
  unfold finishRun
  split_ifs <;> exact ⟨rfl, rfl⟩

theorem ensureHeadersExist_rows (s : Sheet) : (ensureHeadersExist s).rows = s.rows := by
  unfold ensureHeadersExist
  split <;> rfl

theorem ensureHeadersExist_hasHeaders (s : Sheet) :
    (ensureHeadersExist s).hasHeaders = true := by
  unfold ensureHeadersExist
  split <;> simp_all

theorem ensureHeadersExist_of_hasHeaders (s : Sheet) (h : s.hasHeaders = true) :
    ensureHeadersExist s = s := by
  unfold ensureHeadersExist
  rw [h]
  rfl

theorem getExistingTransactionIds_ensure (s : Sheet) :
    getExistingTransactionIds false (ensureHeadersExist s) =
      getExistingTransactionIds false s := by
  unfold getExistingTransactionIds
  rw [ensureHeadersExist_rows]

theorem sheetRow_key (t : Txn) :
    (sheetRow t).get? 8 = some (Cell.str t.transaction_id) := rfl

theorem appendTransactions_sheet_hasHeaders (s : Sheet) (ts : List Txn) :
    (appendTransactions false s ts).sheet.hasHeaders = true := by
  simp only [appendTransactions]
  split_ifs <;> simp [ensureHeadersExist_hasHeaders]

theorem appendTransactions_sheet_rows (s : Sheet) (ts : List Txn) :
    (appendTransactions false s ts).sheet.rows =
      s.rows ++
        (ts.filter (fun t =>
          !(decide (Cell.str t.transaction_id ∈
            getExistingTransactionIds false s)))).map sheetRow := by
  simp only [appendTransactions]
  rw [getExistingTransactionIds_ensure]
  split_ifs with h
  · rw [List.length_eq_zero] at h
    rw [h]
    simp [ensureHeadersExist_rows]
  · simp [ensureHeadersExist_rows]

theorem mem_keys_after_append (s : Sheet) (ts : List Txn)
    (hids : ∀ t ∈ ts, t.transaction_id ≠ "") :
    ∀ t ∈ ts, Cell.str t.transaction_id ∈
      getExistingTransactionIds false (appendTransactions false s ts).sheet := by
  intro t ht
  have hrows := appendTransactions_sheet_rows s ts
  show Cell.str t.transaction_id ∈
    ((appendTransactions false s ts).sheet.rows.filterMap (fun r => r.get? 8)).filter
      Cell.truthy
  rw [hrows, List.filterMap_append, List.filter_append]
  by_cases hk : Cell.str t.transaction_id ∈ getExistingTransactionIds false s
  · exact List.mem_append_left _ hk
  · apply List.mem_append_right
    apply List.mem_filter.mpr
    constructor
    · apply List.mem_filterMap.mpr
      refine ⟨sheetRow t, List.mem_map_of_mem sheetRow ?_, sheetRow_key t⟩
      exact List.mem_filter.mpr ⟨ht, by simp [hk]⟩
    · simp [Cell.truthy, hids t ht]

theorem appendTransactions_of_all_present (s2 : Sheet) (ts : List Txn)
    (h : ∀ t ∈ ts, Cell.str t.transaction_id ∈ getExistingTransactionIds false s2) :
    appendTransactions false s2 ts = ⟨ensureHeadersExist s2, 0, ts.length⟩ := by
  simp only [appendTransactions]
  have hnil : ts.filter (fun t =>
      !(decide (Cell.str t.transaction_id ∈
        getExistingTransactionIds false (ensureHeadersExist s2)))) = [] := by
    rw [getExistingTransactionIds_ensure]
    apply List.filter_eq_nil_iff.mpr
    intro a ha
    simp [h a ha]
  rw [hnil]
  rfl

theorem finishRun_ok (a : Option (List String)) (st : Option String)
    (all : List Txn) : (finishRun a false st all).ok = true := by
  unfold finishRun
  split_ifs <;> simp_all

theorem fetchAllGo_exact (L : List Txn) :
    ∀ (fuel offset : Nat), L.length ≤ offset + 500 * fuel →
    fetchAllGo (srcExact L) L.length fuel offset (L.take offset) = some L := by
  intro fuel
  induction fuel with
  | zero =>
    intro offset h
    simp only [fetchAllGo]
    rw [if_neg (by rw [List.length_take]; omega)]
    rw [List.take_of_length_le (by omega)]
  | succ fuel ih =>
    intro offset h
    simp only [fetchAllGo]
    by_cases hlt : (L.take offset).length < L.length
    · rw [if_pos hlt]
      have hres : L.take offset ++ (srcExact L offset).transactions =
          L.take (offset + 500) := by
        show L.take offset ++ (L.drop offset).take 500 = _
        rw [List.take_add]
      rw [hres]
      exact ih (offset + 500) (by omega)
    · rw [if_neg hlt]
      rw [List.length_take] at hlt
      rw [List.take_of_length_le (by omega)]

theorem fetchAll_exact (L : List Txn) (fuel : Nat) (h : L.length ≤ fuel) :
    fetchAllTransactions (srcExact L) fuel = some L := by
  show fetchAllGo (srcExact L) L.length fuel 500 ((L.drop 0).take 500) = some L
  rw [List.drop_zero]
  exact fetchAllGo_exact L fuel 500 (by omega)

theorem fetchAllGo_total_le (src : Nat → GetResp) (total : Nat) :
    ∀ (fuel offset : Nat) (acc res : List Txn),
      fetchAllGo src total fuel offset acc = some res → total ≤ res.length := by
  intro fuel
  induction fuel with
  | zero =>
    intro offset acc res h
    simp only [fetchAllGo] at h
    by_cases hc : acc.length < total
    · rw [if_pos hc] at h
      cases h
    · rw [if_neg hc] at h
      obtain rfl := Option.some.inj h
      omega
  | succ fuel ih =>
    intro offset acc res h
    simp only [fetchAllGo] at h
    by_cases hc : acc.length < total
    · rw [if_pos hc] at h
      exact ih _ _ _ h
    · rw [if_neg hc] at h
      obtain rfl := Option.some.inj h
      omega

theorem fetchAll_total_le (src : Nat → GetResp) (fuel : Nat) (res : List Txn)
    (h : fetchAllTransactions src fuel = some res) :
    (src 0).total_transactions ≤ res.length := by
  simp only [fetchAllTransactions] at h
  exact fetchAllGo_total_le src _ fuel 500 _ res h

theorem fetchAllGo_congr (src src' : Nat → GetResp) (total : Nat)
    (hsrc : ∀ o, (src o).transactions = (src' o).transactions) :
    ∀ (fuel offset : Nat) (acc : List Txn),
      fetchAllGo src total fuel offset acc = fetchAllGo src' total fuel offset acc := by
  intro fuel
  induction fuel with
  | zero => intro offset acc; rfl
  | succ fuel ih =>
    intro offset acc
    simp only [fetchAllGo]
    split_ifs with hc
    · rw [hsrc offset]
      exact ih _ _
    · rfl

theorem fetchAll_congr (src src' : Nat → GetResp) (fuel : Nat)
    (htx : ∀ o, (src o).transactions = (src' o).transactions)
    (htot : (src 0).total_transactions = (src' 0).total_transactions) :
    fetchAllTransactions src fuel = fetchAllTransactions src' fuel := by
  simp only [fetchAllTransactions]
  rw [htot, htx 0]
  exact fetchAllGo_congr src src' _ htx fuel 500 _

theorem fetchAllGo_stuck_past (src : Nat → GetResp) (total : Nat)
    (hb : ∀ m : Nat, ((src (500 * m)).transactions).length ≤ min 500 (total - 500 * m)) :
    ∀ (fuel k : Nat) (acc : List Txn), acc.length + 1 ≤ min (500 * k) total →
    fetchAllGo src total fuel (500 * k) acc = none := by
  intro fuel
  induction fuel with
  | zero =>
    intro k acc h
    simp only [fetchAllGo]
    rw [if_pos (by omega)]
  | succ fuel ih =>
    intro k acc h
    simp only [fetchAllGo]
    rw [if_pos (by omega)]
    rw [show 500 * k + 500 = 500 * (k + 1) by ring]
    apply ih (k + 1)
    have hbk := hb k
    rw [List.length_append]
    omega

theorem fetchAllGo_stuck_reach (src : Nat → GetResp) (total jd : Nat)
    (hb : ∀ m : Nat, ((src (500 * m)).transactions).length ≤ min 500 (total - 500 * m))
    (hd : ((src (500 * jd)).transactions).length + 1 ≤ min 500 (total - 500 * jd)) :
    ∀ (fuel k : Nat) (acc : List Txn), k ≤ jd → acc.length ≤ min (500 * k) total →
    fetchAllGo src total fuel (500 * k) acc = none := by
  intro fuel
  induction fuel with
  | zero =>
    intro k acc hk h
    simp only [fetchAllGo]
    rw [if_pos (by omega)]
  | succ fuel ih =>
    intro k acc hk h
    simp only [fetchAllGo]
    rw [if_pos (by omega)]
    rw [show 500 * k + 500 = 500 * (k + 1) by ring]
    by_cases hkj : k = jd
    · subst hkj
      apply fetchAllGo_stuck_past src total hb fuel (k + 1)
      rw [List.length_append]
      omega
    · refine ih (k + 1) _ (by omega) ?_
      have hbk := hb k
      rw [List.length_append]
      omega

theorem fetchAll_stuck (src : Nat → GetResp) (jd fuel : Nat)
    (hb : ∀ m : Nat, ((src (500 * m)).transactions).length ≤
      min 500 ((src 0).total_transactions - 500 * m))
    (hd : ((src (500 * jd)).transactions).length + 1 ≤
      min 500 ((src 0).total_transactions - 500 * jd)) :
    fetchAllTransactions src fuel = none := by
  simp only [fetchAllTransactions]
  have hb0 := hb 0
  rw [Nat.mul_zero] at hb0
  rw [show (500 : Nat) = 500 * 1 by ring]
  by_cases hj : jd = 0
  · subst hj
    rw [Nat.mul_zero] at hd
    apply fetchAllGo_stuck_past src _ hb fuel 1
    omega
  · refine fetchAllGo_stuck_reach src _ jd hb hd fuel 1 _ (by omega) ?_
    omega

/-! ### Claim theorems -/

/-- C3: a sync source of K pages, all reporting `has_more` except the last,
makes the drain loop issue exactly K sync calls, return the page-order
concatenation of all added/modified/removed sequences, and report the last
page's `next_cursor`; and the loop never returns while `has_more` stays
true. -/
theorem C3_drain_completeness :
    (∀ (front : List SyncPage) (last : SyncPage) (cursor : Option String),
      (∀ p ∈ front, p.has_more = true) → last.has_more = false →
      fetchTransactionsSync (front ++ [last]) cursor =
        some ⟨pagesConcat (fun p => p.added) (front ++ [last]),
              pagesConcat (fun p => p.modified) (front ++ [last]),
              pagesConcat (fun p => p.removed) (front ++ [last]),
              some last.next_cursor, front.length + 1⟩) ∧
    (∀ (pages : List SyncPage) (cursor : Option String),
      (∀ p ∈ pages, p.has_more = true) →
      fetchTransactionsSync pages cursor = none) := by
  constructor
  · intro front last cursor h1 h2
    have h := syncGo_drain front last [] [] [] cursor 0 h1 h2
    simpa [fetchTransactionsSync] using h
  · intro pages cursor h
    exact syncGo_all_hasMore pages [] [] [] cursor 0 h

/-- C3 witness: a concrete two-page drain evaluated end to end. -/
theorem C3_drain_completeness_witness :
    fetchTransactionsSync
      [⟨[mkTxn "s1"], [], [], true, "k1"⟩,
       ⟨[mkTxn "s2"], [mkTxn "s3"], ["s4"], false, "k2"⟩] none =
      some ⟨[mkTxn "s1", mkTxn "s2"], [mkTxn "s3"], ["s4"], some "k2", 2⟩ := by
  have h := C3_drain_completeness.1 [⟨[mkTxn "s1"], [], [], true, "k1"⟩]
      ⟨[mkTxn "s2"], [mkTxn "s3"], ["s4"], false, "k2"⟩ none
      (by intro p hp; rw [List.mem_singleton] at hp; subst hp; rfl) rfl
  exact h.trans (by decide)

/-- C1 counterexample: in a run whose drain succeeds and whose export write
then fails, the cursor store does NOT keep its pre-run value `"c0"` — `main`
calls `saveCursor` right after the drain and before the export write, so the
store already holds the new cursor `"c1"` when the write fails. -/
theorem C1_counterexample :
    mainWithCursor none false true (some "c0") "c0"
        [⟨[mkTxn "t1"], [], [], false, "c1"⟩] =
      ⟨some "c1", none, false⟩ ∧ (some "c1" : Option String) ≠ some "c0" :=
  ⟨by decide, by decide⟩

/-- C1 amended: cursor persistence precedes the export write.  Whenever the
drain succeeds, the cursor store ends up holding the drained run's final
cursor, whether or not the export write afterwards fails (saveCursor is
still never invoked a second time after the failed write). -/
theorem C1_cursor_saved_before_export :
    ∀ (accountIds : Option (List String)) (exportFails : Bool)
      (store0 : Option String) (c0 : String) (pages : List SyncPage)
      (res : SyncResult),
      fetchTransactionsSync pages (some c0) = some res →
      (mainWithCursor accountIds false exportFails store0 c0 pages).store =
        res.cursor := by
  intro aIds ef s0 c0 pages res h
  simp only [mainWithCursor, h]
  rw [finishRun_store]
  simp [saveCursor]

/-- C1 witness: the amended theorem applied to a concrete failing-export
run. -/
theorem C1_cursor_saved_before_export_witness :
    (mainWithCursor none false true (some "d0") "d0"
        [⟨[mkTxn "t9"], [], [], false, "d9"⟩]).store = some "d9" := by
  have h := C1_cursor_saved_before_export none true (some "d0") "d0"
      [⟨[mkTxn "t9"], [], [], false, "d9"⟩]
      ⟨[mkTxn "t9"], [], [], some "d9", 1⟩ (by decide)
  exact h

/-- C4 counterexample: on the spec's two-page first-run scenario the export
writes 4 rows (only the `added` records), not the claimed 5 — the first-run
sync path of `main` drops the `modified` record. -/
theorem C4_counterexample :
    ((mainFirstRun none false false none (fun _ => (none : Option (List Txn))) 0
        [⟨[mkTxn "t1", mkTxn "t2", mkTxn "t3"], [], [], true, "c1"⟩,
         ⟨[mkTxn "t4"], [mkTxn "t5"], ["r1"], false, "c2"⟩] []).exported.map
      List.length) = some 4 ∧ (4 : Nat) ≠ 5 := by
  constructor
  · decide
  · decide

/-- C4 amended: on the two-page scenario the reconciler does return
added=4, modified=1, removed=1 and finalCursor "c2", and the cursor store
then holds "c2"; but the run exports only the 4 added records
(`allTransactions = [...syncData.added]` on the first-run path), skipping
nothing. -/
theorem C4_scenario_actual :
    fetchTransactionsSync
        [⟨[mkTxn "t1", mkTxn "t2", mkTxn "t3"], [], [], true, "c1"⟩,
         ⟨[mkTxn "t4"], [mkTxn "t5"], ["r1"], false, "c2"⟩] none =
      some ⟨[mkTxn "t1", mkTxn "t2", mkTxn "t3", mkTxn "t4"],
            [mkTxn "t5"], ["r1"], some "c2", 2⟩ ∧
    mainFirstRun none false false none (fun _ => (none : Option (List Txn))) 0
        [⟨[mkTxn "t1", mkTxn "t2", mkTxn "t3"], [], [], true, "c1"⟩,
         ⟨[mkTxn "t4"], [mkTxn "t5"], ["r1"], false, "c2"⟩] [] =
      ⟨some "c2",
       some (normalizeTransactions [mkTxn "t1", mkTxn "t2", mkTxn "t3", mkTxn "t4"]),
       true⟩ := by
  constructor
  · decide
  · decide

/-- C7 counterexample: `saveCursor` swallows a failed write.  On a failing
write it leaves the file unchanged and on a successful one it overwrites it,
yet it hands the caller the identical (undefined) value in both cases; and a
run whose cursor save failed still finishes with ok = true and its pre-run
store — nothing reported distinguishes it from a fully successful run. -/
theorem C7_counterexample :
    (saveCursor true (some "old") (some "new")).jsReturn =
      (saveCursor false (some "old") (some "new")).jsReturn ∧
    (saveCursor true (some "old") (some "new")).file = some "old" ∧
    (saveCursor false (some "old") (some "new")).file = some "new" ∧
    (mainWithCursor none true false (some "e0") "e0"
        [⟨[mkTxn "t6"], [], [], false, "e1"⟩]).ok = true ∧
    (mainWithCursor none true false (some "e0") "e0"
        [⟨[mkTxn "t6"], [], [], false, "e1"⟩]).store = some "e0" := by
  refine ⟨rfl, by decide, by decide, by decide, by decide⟩

/-- C7 amended: a failed cursor save is logged and leaves the single-slot
cursor file unchanged, but it is NOT reported to the caller: `saveCursor`
returns the same value on both paths, and the run's reported outcome (ok
flag and exported rows) is identical whether the save failed or
succeeded. -/
theorem C7_save_failure_not_reported :
    ∀ (f c : Option String) (accountIds : Option (List String))
      (exportFails : Bool) (store0 : Option String) (c0 : String)
      (pages : List SyncPage),
      (saveCursor true f c).jsReturn = (saveCursor false f c).jsReturn ∧
      (saveCursor true f c).file = f ∧
      (saveCursor true f c).errorLogged = true ∧
      (saveCursor false f c).file = c ∧
      (mainWithCursor accountIds true exportFails store0 c0 pages).ok =
        (mainWithCursor accountIds false exportFails store0 c0 pages).ok ∧
      (mainWithCursor accountIds true exportFails store0 c0 pages).exported =
        (mainWithCursor accountIds false exportFails store0 c0 pages).exported := by
  intro f c aIds ef s0 c0 pages
  refine ⟨rfl, by simp [saveCursor], by simp [saveCursor], by simp [saveCursor], ?_, ?_⟩ <;>
  · cases h : fetchTransactionsSync pages (some c0) with
    | none => simp [mainWithCursor, h]
    | some res =>
      simp only [mainWithCursor, h]
      first
      | exact (finishRun_indep_store aIds ef _ _ (res.added ++ res.modified)).1
      | exact (finishRun_indep_store aIds ef _ _ (res.added ++ res.modified)).2

/-- C8 counterexample: the normalizer maps the pending flag to the strings
"Yes"/"No" (field `pending` of the normalized row), and the sheets writer to
"Pending"/"Posted" — neither ever produces the claimed strings "pending" and
"posted". -/
theorem C8_counterexample :
    (normalizeTxn { mkTxn "x" with pending := true }).pending = "Yes" ∧
    (normalizeTxn { mkTxn "x" with pending := true }).pending ≠ "pending" ∧
    (sheetRow { mkTxn "x" with pending := true }).get? 6 =
      some (Cell.str "Pending") ∧
    ("Pending" : String) ≠ "pending" := by
  refine ⟨rfl, by decide, rfl, by decide⟩

/-- C8 amended: the status column is derived solely from the pending flag
and is two-valued, but the values are "Yes"/"No" in the normalizer and
"Pending"/"Posted" in the sheets writer, not "pending"/"posted". -/
theorem C8_pending_two_valued :
    ∀ t t' : Txn,
      ((normalizeTxn t).pending = "Yes" ∨ (normalizeTxn t).pending = "No") ∧
      ((normalizeTxn t).pending = "Yes" ↔ t.pending = true) ∧
      (t.pending = t'.pending →
        (normalizeTxn t).pending = (normalizeTxn t').pending) ∧
      (sheetRow t).get? 6 =
        some (Cell.str (if t.pending then "Pending" else "Posted")) := by
  intro t t'
  refine ⟨?_, ?_, ?_, rfl⟩
  · by_cases h : t.pending <;> simp [normalizeTxn, h]
  · by_cases h : t.pending <;> simp [normalizeTxn, h]
  · intro h
    simp [normalizeTxn, h]

/-- C8 witness: the amended theorem applied to two concrete records with the
same pending flag. -/
theorem C8_pending_two_valued_witness :
    (normalizeTxn { mkTxn "y" with pending := true }).pending = "Yes" ∧
    (normalizeTxn { mkTxn "y" with pending := true }).pending =
      (normalizeTxn { mkTxn "z" with pending := true }).pending := by
  have h := C8_pending_two_valued { mkTxn "y" with pending := true }
      { mkTxn "z" with pending := true }
  exact ⟨h.2.1.mpr rfl, h.2.2.1 rfl⟩

/-- C2 counterexample: the writer is not idempotent for every transaction
list.  A transaction whose `transaction_id` is the empty string is appended
by the first call, but `getExistingTransactionIds` drops falsy values
(`filter(Boolean)`), so the second call does not find the key and appends
the row again: added = 1, not the claimed 0. -/
theorem C2_counterexample :
    (appendTransactions false
        (appendTransactions false ⟨false, []⟩ [mkTxn ""]).sheet [mkTxn ""]).added = 1 ∧
    (1 : Nat) ≠ 0 := by
  constructor
  · decide
  · decide

/-- C2 amended: the writer is idempotent for every list of transactions
whose ids are non-empty strings — a second `appendTransactions` call on the
sheet state left by the first appends nothing (the sheet is unchanged),
reports added = 0 and skips the whole list, because every id is then found
in the key column. -/
theorem C2_append_idempotent :
    ∀ (s : Sheet) (ts : List Txn),
      (∀ t ∈ ts, t.transaction_id ≠ "") →
      (appendTransactions false (appendTransactions false s ts).sheet ts).added = 0 ∧
      (appendTransactions false (appendTransactions false s ts).sheet ts).skipped =
        ts.length ∧
      (appendTransactions false (appendTransactions false s ts).sheet ts).sheet =
        (appendTransactions false s ts).sheet := by
  intro s ts hids
  have h2 := appendTransactions_of_all_present (appendTransactions false s ts).sheet ts
      (mem_keys_after_append s ts hids)
  have hH := ensureHeadersExist_of_hasHeaders (appendTransactions false s ts).sheet
      (appendTransactions_sheet_hasHeaders s ts)
  rw [h2, hH]
  exact ⟨rfl, rfl, rfl⟩

/-- C2 witness: the amended theorem applied to a concrete one-element
list with a non-empty id. -/
theorem C2_append_idempotent_witness :
    (appendTransactions false
        (appendTransactions false ⟨false, []⟩ [mkTxn "w1"]).sheet [mkTxn "w1"]).added = 0 ∧
    (appendTransactions false
        (appendTransactions false ⟨false, []⟩ [mkTxn "w1"]).sheet [mkTxn "w1"]).skipped = 1 := by
  have h := C2_append_idempotent ⟨false, []⟩ [mkTxn "w1"] (by decide)
  exact ⟨h.1, h.2.1⟩

/-- C9: a failing key-column read makes `getExistingTransactionIds` return
the empty set instead of propagating the error, so the following
`appendTransactions` treats every incoming row as new: it appends all of
them and skips none — deduplication is silently disabled for the run. -/
theorem C9_failed_key_scan_disables_dedup :
    ∀ (s : Sheet) (ts : List Txn),
      getExistingTransactionIds true s = [] ∧
      (appendTransactions true s ts).added = ts.length ∧
      (appendTransactions true s ts).skipped = 0 ∧
      (appendTransactions true s ts).sheet.rows = s.rows ++ ts.map sheetRow := by
  intro s ts
  have hfilter :
      ts.filter (fun t => !(decide (Cell.str t.transaction_id ∈ ([] : List Cell)))) = ts := by
    simp
  refine ⟨rfl, ?_, ?_, ?_⟩ <;>
  · simp only [appendTransactions, getExistingTransactionIds, if_pos, hfilter]
    split_ifs with hlen
    · rw [List.length_eq_zero] at hlen
      subst hlen
      simp [ensureHeadersExist_rows]
    · simp [ensureHeadersExist_rows]

/-- C6: on a first run whose initial cursor-less sync fails, `main` falls
back to the Get fetch and uses its records; it then attempts exactly one
cursor-less sync-initialization call.  If that call succeeds its final
cursor (and nothing else) is persisted; if it fails too, the run still
completes successfully on the Get-based records and the cursor store keeps
its pre-run value. -/
theorem C6_fallback_get_then_init :
    ∀ (accountIds : Option (List String)) (store0 : Option String)
      (sync1 : List SyncPage) (getSrc : Nat → Option (List Txn)) (getFuel : Nat)
      (sync2 : List SyncPage) (txns : List Txn),
      fetchTransactionsSync sync1 none = none →
      fetchTransactionsGet getSrc getFuel = some txns →
      (∀ r2 : SyncResult, fetchTransactionsSync sync2 none = some r2 →
        mainFirstRun accountIds false false store0 getSrc getFuel sync1 sync2 =
          finishRun accountIds false r2.cursor txns ∧
        (mainFirstRun accountIds false false store0 getSrc getFuel sync1 sync2).store =
          r2.cursor) ∧
      (fetchTransactionsSync sync2 none = none →
        mainFirstRun accountIds false false store0 getSrc getFuel sync1 sync2 =
          finishRun accountIds false store0 txns ∧
        (mainFirstRun accountIds false false store0 getSrc getFuel sync1 sync2).store =
          store0 ∧
        (mainFirstRun accountIds false false store0 getSrc getFuel sync1 sync2).ok =
          true) := by
  intro aIds s0 sync1 getSrc getFuel sync2 txns h1 hget
  constructor
  · intro r2 h2
    simp only [mainFirstRun, h1, hget, h2]
    refine ⟨by simp [saveCursor], ?_⟩
    rw [finishRun_store]
    simp [saveCursor]
  · intro h2
    simp only [mainFirstRun, h1, hget, h2]
    exact ⟨by trivial, finishRun_store aIds false s0 txns, finishRun_ok aIds s0 txns⟩

/-- C6 witness: both sync calls fail against an empty source, the Get fetch
serves one record; the run succeeds on it and persists nothing. -/
theorem C6_fallback_get_then_init_witness :
    (mainFirstRun none false false none (fun _ => some [mkTxn "g1"]) 1 [] []).store =
      none ∧
    (mainFirstRun none false false none (fun _ => some [mkTxn "g1"]) 1 [] []).ok =
      true ∧
    (mainFirstRun none false false none (fun _ => some [mkTxn "g1"]) 1 [] []).exported =
      some (normalizeTransactions [mkTxn "g1"]) := by
  have h := (C6_fallback_get_then_init none none [] (fun _ => some [mkTxn "g1"]) 1 []
      [mkTxn "g1"] rfl (by decide)).2 rfl
  refine ⟨h.2.1, h.2.2, ?_⟩
  rw [h.1]
  decide

/-- C5 counterexample: the fetcher of `export-transactions-to-sheets.js`
does NOT read the total once from the first page.  Against a source whose
first page reports a total of 2 but whose later pages report 3, it keeps
fetching until the re-read total is met and returns 3 records, so its
stopping condition is the last-read total, not the first page's. -/
theorem C5_counterexample :
    fetchTransactions
        (fun o => if o = 0 then ⟨[mkTxn "b1"], 2⟩
          else if o = 1 then ⟨[mkTxn "b2"], 3⟩ else ⟨[mkTxn "b3"], 3⟩) 10 =
      some [mkTxn "b1", mkTxn "b2", mkTxn "b3"] ∧
    ((fun o => if o = 0 then (⟨[mkTxn "b1"], 2⟩ : GetResp)
        else if o = 1 then ⟨[mkTxn "b2"], 3⟩ else ⟨[mkTxn "b3"], 3⟩) 0).total_transactions =
      2 ∧
    ([mkTxn "b1", mkTxn "b2", mkTxn "b3"] : List Txn).length ≠ 2 := by
  refine ⟨by decide, rfl, by decide⟩

/-- C5 amended: the claim holds for `fetchAllTransactions` of
`src/unnamed/part_004` — its result depends only on the page contents and
the first page's reported total (later totals are never read), and over an
exact offset-paginated source with T records it returns exactly those T
records, in order, with no duplicates and no omissions.  The two companion
fetchers differ: `fetchTransactions` re-reads the total from every page
(see the counterexample) and `fetchTransactionsGet` ignores totals
entirely. -/
theorem C5_total_read_once :
    (∀ (src src' : Nat → GetResp) (fuel : Nat),
      (∀ o, (src o).transactions = (src' o).transactions) →
      (src 0).total_transactions = (src' 0).total_transactions →
      fetchAllTransactions src fuel = fetchAllTransactions src' fuel) ∧
    (∀ (L : List Txn) (fuel : Nat), L.length ≤ fuel →
      fetchAllTransactions (srcExact L) fuel = some L) :=
  ⟨fetchAll_congr, fetchAll_exact⟩

/-- C5 witness: the amended theorem applied to a one-record exact source
and to a pair of sources differing only in a later page's reported total. -/
theorem C5_total_read_once_witness :
    fetchAllTransactions (srcExact [mkTxn "b9"]) 1 = some [mkTxn "b9"] ∧
    fetchAllTransactions (fun o => if o = 0 then ⟨[mkTxn "b8"], 1⟩ else ⟨[], 7⟩) 3 =
      fetchAllTransactions (fun o => if o = 0 then ⟨[mkTxn "b8"], 1⟩ else ⟨[], 9⟩) 3 := by
  constructor
  · exact C5_total_read_once.2 [mkTxn "b9"] 1 (by decide)
  · apply C5_total_read_once.1
    · intro o
      by_cases h : o = 0 <;> simp [h]
    · rfl

/-- C10: `fetchAllTransactions` advances the offset by the fixed page size
500 each iteration and its loop ends only once the accumulated count
reaches the first page's total: with enough fuel it returns exactly the
record list of an exact offset-paginated source; any `some` result has at
least `total` records; and against a source where some requested page is
short of `min 500 (total - offset)` — e.g. an empty page while the count
is still below the total — it returns `none` for EVERY amount of fuel: the
loop never terminates. -/
theorem C10_offset_pagination :
    (∀ (L : List Txn) (fuel : Nat), L.length ≤ fuel →
      fetchAllTransactions (srcExact L) fuel = some L) ∧
    (∀ (src : Nat → GetResp) (fuel : Nat) (res : List Txn),
      fetchAllTransactions src fuel = some res →
      (src 0).total_transactions ≤ res.length) ∧
    (∀ (src : Nat → GetResp) (jd fuel : Nat),
      (∀ m : Nat, ((src (500 * m)).transactions).length ≤
        min 500 ((src 0).total_transactions - 500 * m)) →
      ((src (500 * jd)).transactions).length + 1 ≤
        min 500 ((src 0).total_transactions - 500 * jd) →
      fetchAllTransactions src fuel = none) :=
  ⟨fetchAll_exact, fetchAll_total_le, fetchAll_stuck⟩

/-- C10 witness: a two-record exact source is drained exactly, and a faulty
source whose first page has 1 of 2 reported records and whose later pages
are empty loops forever (here: `none` at fuel 5, via the for-all-fuel
theorem). -/
theorem C10_offset_pagination_witness :
    fetchAllTransactions (srcExact [mkTxn "a1", mkTxn "a2"]) 2 =
      some [mkTxn "a1", mkTxn "a2"] ∧
    fetchAllTransactions (fun o => if o = 0 then ⟨[mkTxn "a1"], 2⟩ else ⟨[], 2⟩) 5 =
      none := by
  constructor
  · exact C10_offset_pagination.1 [mkTxn "a1", mkTxn "a2"] 2 (by decide)
  · apply C10_offset_pagination.2.2 (fun o => if o = 0 then ⟨[mkTxn "a1"], 2⟩ else ⟨[], 2⟩)
      0 5
    · intro m
      cases m with
      | zero => decide
      | succ n =>
        have hne : 500 * (n + 1) ≠ 0 := by omega
        simp [hne]
    · decide

end PlaidExport
